import Mathlib

/-!
Verification development for the `node-python-hy2` bootstrap scripts
(`app.py` and its obfuscated variant `混淆bot.py`).

The scripts are shallowly embedded: the process environment is a partial map
from variable names to strings, the working-directory filesystem is a record
of the files the scripts touch, external effects (HTTP fetches, subprocess
results) are passed in as explicit outcome parameters, and `sys.exit(1)` is
modelled as an exit-code component `some 1` beside the resulting filesystem.
-/

namespace Hy2

/-- The process environment: a partial map from variable names to values,
as `os.environ` / `os.getenv` see it. -/
def Env : Type := String → Option String

/-- Model of `os.getenv(k, d)`: the value of `k`, or the default `d` when unset. -/
def getenvD (env : Env) (k d : String) : String := (env k).getD d

/-- Assignment `os.environ[k] = v`. -/
def setEnv (env : Env) (k v : String) : Env :=
  fun x => if x = k then some v else env x

/-- Python `str.strip()` on the ASCII whitespace the scripts encounter.
(CPython also strips the rarer Unicode whitespace code points, which the
configuration lines handled here do not contain.) -/
def pyStrip (s : String) : String :=
  ⟨((s.data.dropWhile Char.isWhitespace).reverse.dropWhile Char.isWhitespace).reverse⟩

/-- Split a character list at its first `'='`, keeping everything after it
(including later `=`s) in the second component. -/
def splitAtFirstEq : List Char → Option (List Char × List Char)
  | [] => none
  | c :: rest =>
    if c = '=' then some ([], rest)
    else (splitAtFirstEq rest).map (fun p => (c :: p.1, p.2))

/-- Python `line.split("=", 1)` followed by unpacking into two names:
`none` models the `ValueError` raised when the line has no `=` (the
1-element list fails to unpack). -/
def splitFirstEq (s : String) : Option (String × String) :=
  (splitAtFirstEq s.data).map (fun p => (⟨p.1⟩, ⟨p.2⟩))

/-- Python `line.startswith("#")`. -/
def startsWithHash (s : String) : Bool :=
  match s.data with
  | '#' :: _ => true
  | _ => false

/-- Function `load_dotenv` (`app.py` lines 36-48, identically `混淆bot.py` lines
21-33), applied to the lines of the `.env` file: each line is stripped; blank
lines and `#`-comments are skipped; any other line is split at its first
`=` into a key and a value, both stripped, and assigned into the
environment.  A line with no `=` raises `ValueError`, and assigning the
empty key raises `OSError` from `os.environ.__setitem__`; either exception
escapes the loop, is caught by the surrounding `except Exception`, and the
function returns with the assignments made so far kept.  The `Bool` is
`true` when the whole file was processed without an exception. -/
def load_dotenv : List String → Env → Env × Bool
  | [], env => (env, true)
  | l :: ls, env =>
    let line := pyStrip l
    if line = "" then load_dotenv ls env
    else if startsWithHash line then load_dotenv ls env
    else match splitFirstEq line with
      | none => (env, false)
      | some (k, v) =>
        let key := pyStrip k
        if key = "" then (env, false)
        else load_dotenv ls (setEnv env key (pyStrip v))

/-- The value the `.env` file assigns to key `k`: the stripped value of the
last non-blank, non-comment line whose stripped key equals `k` (later lines
override earlier ones, since assignments happen in file order). -/
def dotenvValue : List String → String → Option String
  | [], _ => none
  | l :: ls, k =>
    (dotenvValue ls k).or
      (let line := pyStrip l
       if line = "" then none
       else if startsWithHash line then none
       else match splitFirstEq line with
         | none => none
         | some (a, b) => if pyStrip a = k then some (pyStrip b) else none)

/-- A `.env` line is harmless when it is blank, a comment, or a `KEY=VALUE`
line with a non-empty stripped key — i.e. it cannot raise inside the
loading loop. -/
def wfLine (l : String) : Bool :=
  let line := pyStrip l
  line = "" || startsWithHash line ||
    (match splitFirstEq line with
     | none => false
     | some (a, _) => pyStrip a ≠ "")

/-- A `.env` line list is well formed when every line is harmless, so the
whole file loads without an exception. -/
def WfDotenv (lines : List String) : Prop :=
  ∀ l ∈ lines, wfLine l = true

instance : DecidablePred WfDotenv := fun lines => by
  unfold WfDotenv
  infer_instance

/-! ### Python `int()` on strings -/

/-- Digits of a Python integer literal after the first digit: ASCII digits
with single underscores allowed between digits (`1_0` parses, `1__2` and a
trailing `_` do not).  Accumulates the value in base 10. -/
def pyDigitsRest : List Char → Nat → Option Nat
  | [], acc => some acc
  | '_' :: c :: rest, acc =>
    if c.isDigit then pyDigitsRest rest (acc * 10 + (c.toNat - 48)) else none
  | ['_'], _ => none
  | c :: rest, acc =>
    if c.isDigit then pyDigitsRest rest (acc * 10 + (c.toNat - 48)) else none

/-- A non-empty run of digits (with medial underscores) starting with a
digit, as the integer grammar of Python requires. -/
def pyDigits : List Char → Option Nat
  | [] => none
  | c :: rest => if c.isDigit then pyDigitsRest rest (c.toNat - 48) else none

/-- Python `int(s)` for a string `s`: surrounding whitespace is stripped,
an optional single `+`/`-` sign is consumed, and the remainder must be a
non-empty digit run (underscores allowed between digits).  `none` models
the `ValueError` on any other input.  (CPython additionally accepts
non-ASCII decimal digits, which no realistic port setting contains.) -/
def pyParseInt (s : String) : Option Int :=
  match (pyStrip s).toList with
  | '+' :: rest => (pyDigits rest).map Int.ofNat
  | '-' :: rest => (pyDigits rest).map (fun n => -(n : Int))
  | rest => (pyDigits rest).map Int.ofNat

/-! ### The working-directory filesystem and the module-level paths -/

/-- The files of the working directory that `app.py` touches, each `none`
when absent and `some content` when present. -/
structure FS where
  binary : Option String
  cert : Option String
  key : Option String
  config : Option String
deriving DecidableEq, Repr

/-- Path `CERT_FILE = WORK_DIR / "cert.crt"`. -/
def certFile (wd : String) : String := wd ++ "/cert.crt"

/-- Path `KEY_FILE = WORK_DIR / "cert.key"`. -/
def keyFile (wd : String) : String := wd ++ "/cert.key"

/-! ### `download_hysteria2` (app.py lines 73-90) -/

/-- The result of the attempted binary download, as seen by the `try`
block: `ok bin` when `urlretrieve` and `chmod` succeed and the binary file
holds `bin`; `fail leftoverBin` when an exception is raised, possibly after
`urlretrieve` created a partial file. -/
inductive DlOutcome
  | ok (bin : String)
  | fail (leftoverBin : Option String)
deriving DecidableEq, Repr

/-- Function `download_hysteria2`: when the binary already exists, print and return
without touching it; otherwise download, and on failure `sys.exit(1)` with
whatever partial file the failed retrieval left (app.py does not clean it
up). -/
def download_hysteria2 (fs : FS) (out : DlOutcome) : FS × Option Nat :=
  if fs.binary.isSome then (fs, none)
  else match out with
    | .ok bin => ({ fs with binary := some bin }, none)
    | .fail leftoverBin => ({ fs with binary := leftoverBin }, some 1)

/-! ### `generate_self_signed_cert` (app.py lines 92-113) -/

/-- The result of the `openssl` subprocess and the two `chmod`s: `ok c k`
when the pair was generated with contents `c`, `k`; `fail cAfter kAfter`
when the `try` block raised, with whatever the failed tool left behind. -/
inductive CertOutcome
  | ok (c k : String)
  | fail (cAfter kAfter : Option String)
deriving DecidableEq, Repr

/-- Function `generate_self_signed_cert`: when both `cert.crt` and `cert.key` exist,
return without touching them; otherwise shell out to `openssl`, and on any
exception `sys.exit(1)`. -/
def generate_self_signed_cert (fs : FS) (out : CertOutcome) : FS × Option Nat :=
  if fs.cert.isSome ∧ fs.key.isSome then (fs, none)
  else match out with
    | .ok c k => ({ fs with cert := some c, key := some k }, none)
    | .fail cAfter kAfter => ({ fs with cert := cAfter, key := kAfter }, some 1)

/-! ### `generate_config` (app.py lines 115-148) -/

/-- The YAML text `generate_config` renders, the f-string of app.py lines
131-146 with `port`, the certificate paths, `password` and
`masquerade_url` interpolated.  (The obfuscated variant renders the same
lines without the blank separator lines.) -/
def config_content (wd : String) (port : Int) (password masq : String) : String :=
  "listen: :" ++ toString port ++ "\n\ntls:\n  cert: " ++ certFile wd ++
    "\n  key: " ++ keyFile wd ++ "\n\nauth:\n  type: password\n  password: " ++
    password ++ "\n\nmasquerade:\n  type: proxy\n  proxy:\n    url: " ++ masq ++
    "\n    rewriteHost: true\n"

/-- Function `generate_config`: read `HY2_PORT` (default `"7102"`), `HY2_PASSWORD`
(no default) and `MASQUERADE_URL` (default `"https://www.bing.com"`);
`sys.exit(1)` when the password is unset or empty (`if not password`), then
`sys.exit(1)` when the port does not parse as an integer; otherwise write
the rendered config to `config.yaml` (no existence check — an existing file
is replaced). -/
def generate_config (env : Env) (wd : String) (fs : FS) : FS × Option Nat :=
  let port := getenvD env "HY2_PORT" "7102"
  let password := (env "HY2_PASSWORD").getD ""
  let masq := getenvD env "MASQUERADE_URL" "https://www.bing.com"
  if password = "" then (fs, some 1)
  else match pyParseInt port with
    | none => (fs, some 1)
    | some p => ({ fs with config := some (config_content wd p password masq) }, none)

/-! ### `get_public_ip` (app.py lines 50-71) -/

/-- The fixed, ordered list of IP-echo endpoints (app.py lines 52-58). -/
def ip_sources : List String :=
  ["https://api.ipify.org",
   "https://ifconfig.me",
   "https://icanhazip.com",
   "https://ipinfo.io/ip",
   "http://checkip.amazonaws.com"]

/-- The network, as `get_public_ip` observes it: for each endpoint URL,
`some body` when the GET succeeds with that (decoded) body, `none` when it
raises within the timeout. -/
def Fetch : Type := String → Option String

/-- The loop of `get_public_ip` over a source list: on an exception
`continue`; on a body that strips to the empty string fall through to the
next source; on a non-empty stripped body return it; after the last source
return the placeholder `"你的服务器IP"`. -/
def try_ip_sources (fetch : Fetch) : List String → String
  | [] => "你的服务器IP"
  | s :: rest =>
    match fetch s with
    | none => try_ip_sources fetch rest
    | some body =>
      let ip := pyStrip body
      if ip = "" then try_ip_sources fetch rest else ip

/-- Function `get_public_ip`: probe `ip_sources` in order, first non-empty stripped
body wins, placeholder on total failure (the function never exits the
process). -/
def get_public_ip (fetch : Fetch) : String :=
  try_ip_sources fetch ip_sources

/-- An endpoint response that does not satisfy the loop: an exception, or a
body that is empty after stripping. -/
def badResp (r : Option String) : Bool :=
  match r with
  | none => true
  | some b => pyStrip b = ""

/-! ### `run_hysteria2` (app.py lines 150-177): the printed connection URL -/

/-- Term `base_url` of `run_hysteria2` line 159:
`hysteria2://{password}@{public_ip}:{port}/?sni={fake_domain}&insecure=1`,
with `password` defaulting to `"[未设置]"`, `port` the raw `HY2_PORT`
string (default `"7102"`), and `fake_domain` defaulting to `"bing.com"`. -/
def base_url (env : Env) (public_ip : String) : String :=
  "hysteria2://" ++ getenvD env "HY2_PASSWORD" "[未设置]" ++ "@" ++ public_ip ++
    ":" ++ getenvD env "HY2_PORT" "7102" ++ "/?sni=" ++
    getenvD env "FAKE_DOMAIN" "bing.com" ++ "&insecure=1"

/-- The effective node name of `run_hysteria2` line 156:
`os.getenv("HY2_NODE_NAME", "Hysteria2 Node").strip()`. -/
def node_name (env : Env) : String :=
  pyStrip (getenvD env "HY2_NODE_NAME" "Hysteria2 Node")

/-- Term `client_url` of `run_hysteria2` line 160: the base URL, with
`#{node_name}` appended exactly when the effective node name is non-empty
(`if hy2_node_name` in Python). -/
def client_url (env : Env) (public_ip : String) : String :=
  if node_name env = "" then base_url env public_ip
  else base_url env public_ip ++ "#" ++ node_name env

/-! ### `main` (app.py lines 179-193) as an event trace -/

/-- The observable steps of `main`, in the vocabulary of the spec: load the
`.env` environment, ensure the binary, ensure the certificate, render the
config, sleep, print the connection info, launch the server process. -/
inductive Ev
  | loadEnv
  | ensureBinary
  | ensureCert
  | renderConfig
  | sleep
  | printInfo
  | launchServer
deriving DecidableEq, Repr

/-- The environment after `load_dotenv` ran: unchanged when no `.env` file
exists, otherwise the result of loading its lines. -/
def effectiveEnv (env0 : Env) (dotenv : Option (List String)) : Env :=
  match dotenv with
  | none => env0
  | some ls => (load_dotenv ls env0).1

/-- Function `main`: `load_dotenv(); download_hysteria2(); generate_self_signed_cert();
generate_config(); time.sleep(2); run_hysteria2()` in that order, each
`sys.exit(1)` cutting the run short.  Returns the trace of steps reached,
the final filesystem and the exit code (`none` when the run reached the
blocking server launch). -/
def main (env0 : Env) (dotenv : Option (List String)) (wd : String) (fs0 : FS)
    (dl : DlOutcome) (co : CertOutcome) : List Ev × FS × Option Nat :=
  let env := effectiveEnv env0 dotenv
  let r1 := download_hysteria2 fs0 dl
  match r1.2 with
  | some n => ([.loadEnv, .ensureBinary], r1.1, some n)
  | none =>
    let r2 := generate_self_signed_cert r1.1 co
    match r2.2 with
    | some n => ([.loadEnv, .ensureBinary, .ensureCert], r2.1, some n)
    | none =>
      let r3 := generate_config env wd r2.1
      match r3.2 with
      | some n => ([.loadEnv, .ensureBinary, .ensureCert, .renderConfig], r3.1, some n)
      | none =>
        ([.loadEnv, .ensureBinary, .ensureCert, .renderConfig, .sleep,
          .printInfo, .launchServer], r3.1, none)

/-! ### `download_hysteria2` of the obfuscated variant (混淆bot.py lines 58-95) -/

/-- The working directory as the download of the obfuscated variant sees it:
the `temp-binary` staging file, the hidden `.bin_name` record, and the
other files by name (where the randomly named binary lands). -/
structure OFS where
  tempBinary : Option String
  record : Option String
  named : String → Option String

/-- Where the `try` block of the obfuscated download fails, if anywhere:
`fetchFail leftoverTemp` — `urlretrieve` raised, possibly leaving a partial
`temp-binary`; `chmodFail` / `renameFail` — the later call raised with
`temp-binary` still in place; `recordFail` — `.bin_name` could not be
written after the successful rename; `success` — everything worked. -/
inductive ObfOutcome
  | fetchFail (leftoverTemp : Option String)
  | chmodFail
  | renameFail
  | recordFail
  | success
deriving DecidableEq, Repr

/-- The obfuscated `download_hysteria2`: when `.bin_name` exists and names
an existing executable file (`recordedOk`), skip the download entirely.
Otherwise download to `temp-binary`, chmod it, rename it to the random
name, and record that name in `.bin_name`; on any exception in the block,
unlink `temp-binary` if it still exists and `sys.exit(1)`.  (`.bin_name`
writing is modelled as atomic: on `recordFail` the record keeps its old
content.) -/
def download_hysteria2_obf (fs : OFS) (recordedOk : Bool) (randomName bin : String)
    (out : ObfOutcome) : OFS × Option Nat :=
  if fs.record.isSome ∧ recordedOk then (fs, none)
  else
    match out with
    | .fetchFail leftoverTemp =>
      -- the partial file, when created, is immediately unlinked by the handler
      let fs1 := { fs with tempBinary := leftoverTemp }
      ({ fs1 with tempBinary := none }, some 1)
    | .chmodFail =>
      let fs1 := { fs with tempBinary := some bin }
      ({ fs1 with tempBinary := none }, some 1)
    | .renameFail =>
      let fs1 := { fs with tempBinary := some bin }
      ({ fs1 with tempBinary := none }, some 1)
    | .recordFail =>
      ({ fs with tempBinary := none,
                 named := fun n => if n = randomName then some bin else fs.named n },
       some 1)
    | .success =>
      ({ fs with tempBinary := none,
                 named := fun n => if n = randomName then some bin else fs.named n,
                 record := some randomName },
       none)

/-- Proposition that `needle` occurs contiguously inside `hay`. -/
def ContainsStr (needle hay : String) : Prop :=
  ∃ s t, hay = s ++ (needle ++ t)

/-! ### Helper lemmas -/

theorem load_dotenv_cons (l : String) (ls : List String) (env : Env) :
    load_dotenv (l :: ls) env =
      (if pyStrip l = "" then load_dotenv ls env
       else if startsWithHash (pyStrip l) = true then load_dotenv ls env
       else match splitFirstEq (pyStrip l) with
         | none => (env, false)
         | some (k, v) =>
           if pyStrip k = "" then (env, false)
           else load_dotenv ls (setEnv env (pyStrip k) (pyStrip v))) := rfl

theorem dotenvValue_cons (l : String) (ls : List String) (k : String) :
    dotenvValue (l :: ls) k =
      (dotenvValue ls k).or
        (if pyStrip l = "" then none
         else if startsWithHash (pyStrip l) = true then none
         else match splitFirstEq (pyStrip l) with
           | none => none
           | some (a, b) => if pyStrip a = k then some (pyStrip b) else none) := rfl

theorem try_ip_sources_cons (fetch : Fetch) (s : String) (rest : List String) :
    try_ip_sources fetch (s :: rest) =
      (match fetch s with
       | none => try_ip_sources fetch rest
       | some body =>
         if pyStrip body = "" then try_ip_sources fetch rest
         else pyStrip body) := rfl

theorem wfLine_material (l : String) (hw : wfLine l = true) (hb : ¬ pyStrip l = "")
    (hh : ¬ startsWithHash (pyStrip l) = true) :
    ∃ a b, splitFirstEq (pyStrip l) = some (a, b) ∧ ¬ pyStrip a = "" := by
  rcases hsp : splitFirstEq (pyStrip l) with _ | ⟨a, b⟩
  · simp [wfLine, hb, hh, hsp] at hw
  · refine ⟨a, b, rfl, ?_⟩
    simp [wfLine, hb, hh, hsp] at hw
    exact hw

/-- The single characterization of `load_dotenv` on a well-formed file:
the whole file is processed (`true`), and the final value of each key is the
last value the file assigns to it, falling back to the prior environment
when the file never assigns it. -/
theorem load_dotenv_char (lines : List String) (env : Env) (h : WfDotenv lines) :
    (load_dotenv lines env).2 = true ∧
      ∀ k, (load_dotenv lines env).1 k = (dotenvValue lines k).or (env k) := by
  induction lines generalizing env with
  | nil => exact ⟨rfl, fun k => rfl⟩
  | cons l ls ih =>
    have hl : wfLine l = true := h l (List.mem_cons_self _ _)
    have hls : WfDotenv ls := fun x hx => h x (List.mem_cons_of_mem _ hx)
    by_cases hb : pyStrip l = ""
    · rw [load_dotenv_cons, if_pos hb]
      obtain ⟨h1, h2⟩ := ih env hls
      refine ⟨h1, fun k => ?_⟩
      rw [dotenvValue_cons, if_pos hb, Option.or_none]
      exact h2 k
    · by_cases hh : startsWithHash (pyStrip l) = true
      · rw [load_dotenv_cons, if_neg hb, if_pos hh]
        obtain ⟨h1, h2⟩ := ih env hls
        refine ⟨h1, fun k => ?_⟩
        rw [dotenvValue_cons, if_neg hb, if_pos hh, Option.or_none]
        exact h2 k
      · obtain ⟨a, b, hsp, hka⟩ := wfLine_material l hl hb hh
        rw [load_dotenv_cons, if_neg hb, if_neg hh, hsp]
        simp only [if_neg hka]
        obtain ⟨h1, h2⟩ := ih (setEnv env (pyStrip a) (pyStrip b)) hls
        refine ⟨h1, fun k => ?_⟩
        rw [h2 k, dotenvValue_cons, if_neg hb, if_neg hh, hsp, Option.or_assoc]
        have e3 : setEnv env (pyStrip a) (pyStrip b) k
            = (if pyStrip a = k then some (pyStrip b) else none).or (env k) := by
          unfold setEnv
          by_cases hk : k = pyStrip a
          · rw [if_pos hk, if_pos (Eq.symm hk)]
            rfl
          · rw [if_neg hk, if_neg (fun hc => hk (Eq.symm hc)), Option.none_or]
        rw [e3]

theorem try_ip_sources_all_bad (fetch : Fetch) (l : List String)
    (h : ∀ s ∈ l, badResp (fetch s) = true) :
    try_ip_sources fetch l = "你的服务器IP" := by
  induction l with
  | nil => rfl
  | cons s rest ih =>
    have hs := h s (List.mem_cons_self _ _)
    have hrest := fun t ht => h t (List.mem_cons_of_mem _ ht)
    rw [try_ip_sources_cons]
    rcases hf : fetch s with _ | body
    · exact ih hrest
    · unfold badResp at hs
      rw [hf] at hs
      simp only [decide_eq_true_eq] at hs
      simp only [hs, if_pos]
      exact ih hrest

theorem try_ip_sources_first_good (fetch : Fetch) (l1 : List String) (s : String)
    (l2 : List String) (body : String) (h1 : ∀ t ∈ l1, badResp (fetch t) = true)
    (h2 : fetch s = some body) (h3 : ¬ pyStrip body = "") :
    try_ip_sources fetch (l1 ++ s :: l2) = pyStrip body := by
  induction l1 with
  | nil =>
    rw [List.nil_append, try_ip_sources_cons, h2]
    simp [h3]
  | cons t rest ih =>
    have ht := h1 t (List.mem_cons_self _ _)
    have hrest := fun u hu => h1 u (List.mem_cons_of_mem _ hu)
    rw [List.cons_append, try_ip_sources_cons]
    rcases hf : fetch t with _ | b
    · exact ih hrest
    · unfold badResp at ht
      rw [hf] at ht
      simp only [decide_eq_true_eq] at ht
      simp only [ht, if_pos]
      exact ih hrest

theorem download_exit (fs : FS) (dl : DlOutcome) :
    (download_hysteria2 fs dl).2 = none ∨ (download_hysteria2 fs dl).2 = some 1 := by
  unfold download_hysteria2
  rcases dl <;> by_cases hb : fs.binary.isSome <;> simp [hb]

theorem cert_exit (fs : FS) (co : CertOutcome) :
    (generate_self_signed_cert fs co).2 = none
      ∨ (generate_self_signed_cert fs co).2 = some 1 := by
  unfold generate_self_signed_cert
  rcases co <;> by_cases hb : fs.cert.isSome ∧ fs.key.isSome <;> simp [hb]

/-! ### The claims -/

/-- C3: when `HY2_PASSWORD` is absent from the effective environment (not
set in the process environment and not supplied by the `.env` file), the
run terminates with exit code 1 inside `generate_config`, which `main`
runs strictly before `run_hysteria2`, so the server-launch step is never
reached. -/
theorem c3_missing_password_never_launches (env0 : Env) (dotenv : Option (List String))
    (wd : String) (fs0 fs : FS) (dl : DlOutcome) (co : CertOutcome)
    (h : effectiveEnv env0 dotenv "HY2_PASSWORD" = none) :
    generate_config (effectiveEnv env0 dotenv) wd fs = (fs, some 1)
    ∧ (main env0 dotenv wd fs0 dl co).2.2 = some 1
    ∧ Ev.launchServer ∉ (main env0 dotenv wd fs0 dl co).1 := by
  have hgc : ∀ fs2, generate_config (effectiveEnv env0 dotenv) wd fs2 = (fs2, some 1) := by
    intro fs2
    unfold generate_config
    rw [h]
    simp
  refine ⟨hgc fs, ?_⟩
  unfold main
  rcases download_exit fs0 dl with hd | hd
  · rcases cert_exit (download_hysteria2 fs0 dl).1 co with hc | hc
    · simp [hd, hc, hgc]
    · simp [hd, hc]
  · simp [hd]

/-- Witness for C3 at a concrete run: empty environment, no `.env` file,
empty working directory, successful download and certificate outcomes. -/
theorem c3_missing_password_never_launches_witness :
    generate_config (effectiveEnv (fun _ => none) none) "/home/container"
        (FS.mk none none none none) = (FS.mk none none none none, some 1)
    ∧ (main (fun _ => none) none "/home/container" (FS.mk none none none none)
        (DlOutcome.ok "bin") (CertOutcome.ok "crt" "key")).2.2 = some 1
    ∧ Ev.launchServer ∉ (main (fun _ => none) none "/home/container"
        (FS.mk none none none none) (DlOutcome.ok "bin") (CertOutcome.ok "crt" "key")).1 :=
  c3_missing_password_never_launches (fun _ => none) none "/home/container"
    (FS.mk none none none none) (FS.mk none none none none)
    (DlOutcome.ok "bin") (CertOutcome.ok "crt" "key") rfl

/-- C6: when `HY2_PORT` is set to a string that does not parse as a Python
integer, `generate_config` terminates the run with exit code 1 and leaves
the filesystem — in particular `config.yaml` — untouched. -/
theorem c6_bad_port_exits_before_write (env : Env) (wd : String) (fs : FS) (s : String)
    (hset : env "HY2_PORT" = some s) (hbad : pyParseInt s = none) :
    generate_config env wd fs = (fs, some 1) := by
  unfold generate_config
  simp only [getenvD, hset, Option.getD_some]
  rw [hbad]
  by_cases hp : (env "HY2_PASSWORD").getD "" = ""
  · rw [if_pos hp]
  · rw [if_neg hp]

/-- Witness for C6 at the concrete port string `"abc"`. -/
theorem c6_bad_port_exits_before_write_witness :
    (fun x => if x = "HY2_PORT" then some "abc" else some "pw" : Env) "HY2_PORT" = some "abc"
    ∧ pyParseInt "abc" = none
    ∧ generate_config (fun x => if x = "HY2_PORT" then some "abc" else some "pw")
        "/home/container" (FS.mk none none none none)
        = (FS.mk none none none none, some 1) :=
  ⟨by decide, by decide,
    c6_bad_port_exits_before_write _ "/home/container" _ "abc" (by decide) (by decide)⟩

/-- C7: every run of `main` that reaches the server launch performed
exactly the steps load-env, ensure-binary, ensure-certificate,
render-config, sleep, print-info, launch-server, in that order, with the
launch last. -/
theorem c7_main_linear_order (env0 : Env) (dotenv : Option (List String)) (wd : String)
    (fs0 : FS) (dl : DlOutcome) (co : CertOutcome)
    (h : Ev.launchServer ∈ (main env0 dotenv wd fs0 dl co).1) :
    (main env0 dotenv wd fs0 dl co).1 =
      [Ev.loadEnv, Ev.ensureBinary, Ev.ensureCert, Ev.renderConfig, Ev.sleep,
       Ev.printInfo, Ev.launchServer] := by
  unfold main at h ⊢
  rcases download_exit fs0 dl with hd | hd
  · rcases cert_exit (download_hysteria2 fs0 dl).1 co with hc | hc
    · rcases h3 : (generate_config (effectiveEnv env0 dotenv) wd
          (generate_self_signed_cert (download_hysteria2 fs0 dl).1 co).1).2 with _ | n
      · simp only [hd, hc, h3]
      · simp only [hd, hc, h3] at h
        simp at h
    · simp only [hd, hc] at h
      simp at h
  · simp only [hd] at h
    simp at h

/-- Witness for C7 at a concrete run that reaches the launch: password set,
all artifacts initially absent, download and certificate generation
succeed. -/
theorem c7_main_linear_order_witness :
    Ev.launchServer ∈ (main (fun x => if x = "HY2_PASSWORD" then some "pw" else none)
        none "/home/container" (FS.mk none none none none)
        (DlOutcome.ok "bin") (CertOutcome.ok "crt" "key")).1
    ∧ (main (fun x => if x = "HY2_PASSWORD" then some "pw" else none)
        none "/home/container" (FS.mk none none none none)
        (DlOutcome.ok "bin") (CertOutcome.ok "crt" "key")).1 =
      [Ev.loadEnv, Ev.ensureBinary, Ev.ensureCert, Ev.renderConfig, Ev.sleep,
       Ev.printInfo, Ev.launchServer] :=
  ⟨by decide,
    c7_main_linear_order (fun x => if x = "HY2_PASSWORD" then some "pw" else none)
      none "/home/container" (FS.mk none none none none)
      (DlOutcome.ok "bin") (CertOutcome.ok "crt" "key") (by decide)⟩

/-- C8: function `load_dotenv` on a well-formed `.env` file processes it line by
line — blank lines and `#`-comments are skipped, every other line is split
at its first `=`, stripped, and stored — so the whole file loads without
an exception, and each key ends at the last value the file assigns to it,
keeping its prior environment value when the file never assigns it. -/
theorem c8_load_dotenv_processing (lines : List String) (env : Env) (k : String)
    (h : WfDotenv lines) :
    (load_dotenv lines env).2 = true
    ∧ (load_dotenv lines env).1 k = (dotenvValue lines k).or (env k) := by
  obtain ⟨h1, h2⟩ := load_dotenv_char lines env h
  exact ⟨h1, h2 k⟩

/-- Witness for C8 at a concrete file with a comment, a blank line,
whitespace around `=`, and a redefinition. -/
theorem c8_load_dotenv_processing_witness :
    WfDotenv ["# comment", "", "A = 1", "B=2", "A=3"]
    ∧ ((load_dotenv ["# comment", "", "A = 1", "B=2", "A=3"] (fun _ => none)).2 = true
       ∧ (load_dotenv ["# comment", "", "A = 1", "B=2", "A=3"] (fun _ => none)).1 "A"
          = (dotenvValue ["# comment", "", "A = 1", "B=2", "A=3"] "A").or
              ((fun _ => none : Env) "A")) :=
  ⟨by decide,
    c8_load_dotenv_processing ["# comment", "", "A = 1", "B=2", "A=3"]
      (fun _ => none) "A" (by decide)⟩

/-- C9: in the obfuscated variant, any failing run of the download leaves
no `temp-binary` file behind and leaves the `.bin_name` record exactly as
it was — the record is written only by the success path, after the
download and the rename. -/
theorem c9_obf_failed_download_cleanup (fs : OFS) (recordedOk : Bool)
    (randomName bin : String) (out : ObfOutcome)
    (h : (download_hysteria2_obf fs recordedOk randomName bin out).2 = some 1) :
    (download_hysteria2_obf fs recordedOk randomName bin out).1.tempBinary = none
    ∧ (download_hysteria2_obf fs recordedOk randomName bin out).1.record = fs.record := by
  unfold download_hysteria2_obf at h ⊢
  by_cases hr : fs.record.isSome ∧ recordedOk = true
  · rw [if_pos hr] at h
    exact absurd h (by simp)
  · rw [if_neg hr] at h ⊢
    rcases out <;> simp_all

/-- Witness for C9 at a concrete failed retrieval, starting from a
directory that already holds a stale `temp-binary`. -/
theorem c9_obf_failed_download_cleanup_witness :
    (download_hysteria2_obf (OFS.mk (some "stale") none (fun _ => none)) false
        "abcd0123" "bin" (ObfOutcome.fetchFail (some "partial"))).2 = some 1
    ∧ ((download_hysteria2_obf (OFS.mk (some "stale") none (fun _ => none)) false
          "abcd0123" "bin" (ObfOutcome.fetchFail (some "partial"))).1.tempBinary = none
       ∧ (download_hysteria2_obf (OFS.mk (some "stale") none (fun _ => none)) false
          "abcd0123" "bin" (ObfOutcome.fetchFail (some "partial"))).1.record
          = (OFS.mk (some "stale") none (fun _ => none)).record) :=
  ⟨by decide,
    c9_obf_failed_download_cleanup (OFS.mk (some "stale") none (fun _ => none)) false
      "abcd0123" "bin" (ObfOutcome.fetchFail (some "partial")) (by decide)⟩

/-- C10: function `load_dotenv` assigns every key the (well-formed) `.env` file
defines unconditionally: whatever value `k` had in the prior environment,
after loading it holds the value the file assigns. -/
theorem c10_dotenv_overrides_prior_env (lines : List String) (env : Env) (k v : String)
    (h : WfDotenv lines) (hv : dotenvValue lines k = some v) :
    (load_dotenv lines env).1 k = some v := by
  obtain ⟨-, h2⟩ := load_dotenv_char lines env h
  rw [h2 k, hv]
  rfl

/-- C1 counterexample: with the binary, the certificate pair and
`config.yaml` (content `"old"`) all present, a successful `generate_config`
run still replaces `config.yaml` — the function has no existence check, so
"an existing config is never overwritten" fails. -/
theorem c1_counterexample :
    (FS.mk (some "bin") (some "crt") (some "key") (some "old")).config = some "old"
    ∧ (generate_config (fun x => if x = "HY2_PASSWORD" then some "pw" else none)
        "/home/container" (FS.mk (some "bin") (some "crt") (some "key") (some "old"))).2
      = none
    ∧ ¬ (generate_config (fun x => if x = "HY2_PASSWORD" then some "pw" else none)
        "/home/container" (FS.mk (some "bin") (some "crt") (some "key") (some "old"))).1.config
      = some "old" :=
  ⟨rfl, by decide, by decide⟩

/-- C1 (amended): with the binary and the certificate pair present,
`download_hysteria2` and `generate_self_signed_cert` leave the filesystem
untouched; `generate_config`, however, rewrites `config.yaml` with the
freshly rendered content on every successful run, replacing any existing
file. -/
theorem c1_existing_artifacts (fs : FS) (dl : DlOutcome) (co : CertOutcome)
    (env : Env) (wd : String) (pw : String) (p : Int)
    (hb : fs.binary.isSome) (hc : fs.cert.isSome) (hk : fs.key.isSome)
    (hpw : env "HY2_PASSWORD" = some pw) (hne : ¬ pw = "")
    (hp : pyParseInt (getenvD env "HY2_PORT" "7102") = some p) :
    download_hysteria2 fs dl = (fs, none)
    ∧ generate_self_signed_cert fs co = (fs, none)
    ∧ (generate_config env wd fs).1.config
      = some (config_content wd p pw (getenvD env "MASQUERADE_URL" "https://www.bing.com")) := by
  refine ⟨?_, ?_, ?_⟩
  · unfold download_hysteria2
    rw [if_pos hb]
  · unfold generate_self_signed_cert
    rw [if_pos ⟨hc, hk⟩]
  · unfold generate_config
    simp only [hpw, Option.getD_some]
    rw [if_neg hne, hp]

/-- Witness for C1 (amended) at a concrete fully populated directory. -/
theorem c1_existing_artifacts_witness :
    download_hysteria2 (FS.mk (some "bin") (some "crt") (some "key") (some "old"))
        (DlOutcome.ok "newbin")
      = (FS.mk (some "bin") (some "crt") (some "key") (some "old"), none)
    ∧ generate_self_signed_cert (FS.mk (some "bin") (some "crt") (some "key") (some "old"))
        (CertOutcome.ok "c2" "k2")
      = (FS.mk (some "bin") (some "crt") (some "key") (some "old"), none)
    ∧ (generate_config (fun x => if x = "HY2_PASSWORD" then some "pw" else none)
        "/home/container" (FS.mk (some "bin") (some "crt") (some "key") (some "old"))).1.config
      = some (config_content "/home/container" 7102 "pw"
          (getenvD (fun x => if x = "HY2_PASSWORD" then some "pw" else none)
            "MASQUERADE_URL" "https://www.bing.com")) :=
  c1_existing_artifacts (FS.mk (some "bin") (some "crt") (some "key") (some "old"))
    (DlOutcome.ok "newbin") (CertOutcome.ok "c2" "k2")
    (fun x => if x = "HY2_PASSWORD" then some "pw" else none) "/home/container" "pw" 7102
    (by decide) (by decide) (by decide) (by decide) (by decide) (by decide)

/-- C2 counterexample: with `HY2_NODE_NAME` unset, the printed URL still
carries a `#` suffix — the default name `"Hysteria2 Node"` is appended —
so "no name configured implies no `#` suffix" fails. -/
theorem c2_counterexample :
    (fun _ => none : Env) "HY2_NODE_NAME" = none
    ∧ client_url (fun _ => none) "1.2.3.4"
      = base_url (fun _ => none) "1.2.3.4" ++ "#Hysteria2 Node" :=
  ⟨rfl, by decide⟩

/-- C2 (amended): the printed URL is always the template
`hysteria2://password@ip:port/?sni=domain&insecure=1` with a `#name`
suffix appended exactly when the effective node name — `HY2_NODE_NAME`
defaulting to `"Hysteria2 Node"` when unset, then stripped — is non-empty;
so the suffix is omitted only when `HY2_NODE_NAME` is explicitly set to a
blank (whitespace-only) value, never when it is simply unset. -/
theorem c2_client_url_template (env : Env) (ip : String) :
    client_url env ip =
      "hysteria2://" ++ getenvD env "HY2_PASSWORD" "[未设置]" ++ "@" ++ ip ++ ":" ++
        getenvD env "HY2_PORT" "7102" ++ "/?sni=" ++
        getenvD env "FAKE_DOMAIN" "bing.com" ++ "&insecure=1" ++
        (if node_name env = "" then "" else "#" ++ node_name env)
    ∧ (node_name env = "" ↔ ∃ s, env "HY2_NODE_NAME" = some s ∧ pyStrip s = "") := by
  constructor
  · by_cases hn : node_name env = ""
    · simp only [client_url, base_url, hn, if_pos, String.append_empty]
    · simp only [client_url, base_url, if_neg hn, String.append_assoc]
  · constructor
    · intro hn
      rcases hs : env "HY2_NODE_NAME" with _ | s
      · exfalso
        unfold node_name getenvD at hn
        rw [hs] at hn
        exact absurd hn (by decide)
      · refine ⟨s, rfl, ?_⟩
        unfold node_name getenvD at hn
        rw [hs] at hn
        exact hn
    · rintro ⟨s, hs, hstrip⟩
      unfold node_name getenvD
      rw [hs]
      exact hstrip

/-- C4 counterexample: with `HY2_PASSWORD` set (to the empty string) and
the default port parsing fine, `generate_config` exits with code 1 and
writes nothing — `if not password` treats a set-but-empty password as
missing, so the "is set" hypothesis of the claim is not enough. -/
theorem c4_counterexample :
    ((fun x => if x = "HY2_PASSWORD" then some "" else none : Env) "HY2_PASSWORD").isSome
      = true
    ∧ pyParseInt (getenvD (fun x => if x = "HY2_PASSWORD" then some "" else none)
        "HY2_PORT" "7102") = some 7102
    ∧ generate_config (fun x => if x = "HY2_PASSWORD" then some "" else none)
        "/home/container" (FS.mk none none none none)
      = (FS.mk none none none none, some 1) :=
  ⟨by decide, by decide, by decide⟩

/-- C4 (amended): when `HY2_PASSWORD` is set to a non-empty value and the
effective `HY2_PORT` parses as an integer, `generate_config` writes the
rendered config, and that string contains the parsed port in the listen
line, the certificate path, the key path, the password, and the masquerade
URL (defaulting to `https://www.bing.com` when `MASQUERADE_URL` is
unset). -/
theorem c4_config_contents (env : Env) (wd : String) (fs : FS) (pw : String) (p : Int)
    (hpw : env "HY2_PASSWORD" = some pw) (hne : ¬ pw = "")
    (hp : pyParseInt (getenvD env "HY2_PORT" "7102") = some p) :
    generate_config env wd fs =
      ({ fs with config := some (config_content wd p pw
          (getenvD env "MASQUERADE_URL" "https://www.bing.com")) }, none)
    ∧ ContainsStr ("listen: :" ++ toString p)
        (config_content wd p pw (getenvD env "MASQUERADE_URL" "https://www.bing.com"))
    ∧ ContainsStr (certFile wd)
        (config_content wd p pw (getenvD env "MASQUERADE_URL" "https://www.bing.com"))
    ∧ ContainsStr (keyFile wd)
        (config_content wd p pw (getenvD env "MASQUERADE_URL" "https://www.bing.com"))
    ∧ ContainsStr pw
        (config_content wd p pw (getenvD env "MASQUERADE_URL" "https://www.bing.com"))
    ∧ ContainsStr (getenvD env "MASQUERADE_URL" "https://www.bing.com")
        (config_content wd p pw (getenvD env "MASQUERADE_URL" "https://www.bing.com")) := by
  refine ⟨?_, ?_, ?_, ?_, ?_, ?_⟩
  · unfold generate_config
    simp only [hpw, Option.getD_some]
    rw [if_neg hne, hp]
  · refine ⟨"", "\n\ntls:\n  cert: " ++ certFile wd ++ "\n  key: " ++ keyFile wd ++
      "\n\nauth:\n  type: password\n  password: " ++ pw ++
      "\n\nmasquerade:\n  type: proxy\n  proxy:\n    url: " ++
      getenvD env "MASQUERADE_URL" "https://www.bing.com" ++
      "\n    rewriteHost: true\n", ?_⟩
    simp [config_content, String.append_assoc, String.empty_append]
  · refine ⟨"listen: :" ++ toString p ++ "\n\ntls:\n  cert: ",
      "\n  key: " ++ keyFile wd ++ "\n\nauth:\n  type: password\n  password: " ++ pw ++
      "\n\nmasquerade:\n  type: proxy\n  proxy:\n    url: " ++
      getenvD env "MASQUERADE_URL" "https://www.bing.com" ++
      "\n    rewriteHost: true\n", ?_⟩
    simp [config_content, String.append_assoc]
  · refine ⟨"listen: :" ++ toString p ++ "\n\ntls:\n  cert: " ++ certFile wd ++
      "\n  key: ",
      "\n\nauth:\n  type: password\n  password: " ++ pw ++
      "\n\nmasquerade:\n  type: proxy\n  proxy:\n    url: " ++
      getenvD env "MASQUERADE_URL" "https://www.bing.com" ++
      "\n    rewriteHost: true\n", ?_⟩
    simp [config_content, String.append_assoc]
  · refine ⟨"listen: :" ++ toString p ++ "\n\ntls:\n  cert: " ++ certFile wd ++
      "\n  key: " ++ keyFile wd ++ "\n\nauth:\n  type: password\n  password: ",
      "\n\nmasquerade:\n  type: proxy\n  proxy:\n    url: " ++
      getenvD env "MASQUERADE_URL" "https://www.bing.com" ++
      "\n    rewriteHost: true\n", ?_⟩
    simp [config_content, String.append_assoc]
  · refine ⟨"listen: :" ++ toString p ++ "\n\ntls:\n  cert: " ++ certFile wd ++
      "\n  key: " ++ keyFile wd ++ "\n\nauth:\n  type: password\n  password: " ++ pw ++
      "\n\nmasquerade:\n  type: proxy\n  proxy:\n    url: ",
      "\n    rewriteHost: true\n", ?_⟩
    simp [config_content, String.append_assoc]

/-- Witness for C4 (amended) at a concrete environment with password `pw`
and the default port. -/
theorem c4_config_contents_witness :
    generate_config (fun x => if x = "HY2_PASSWORD" then some "pw" else none)
        "/home/container" (FS.mk none none none none) =
      ({ FS.mk none none none none with
          config := some (config_content "/home/container" 7102 "pw"
            (getenvD (fun x => if x = "HY2_PASSWORD" then some "pw" else none)
              "MASQUERADE_URL" "https://www.bing.com")) }, none)
    ∧ ContainsStr ("listen: :" ++ toString (7102 : Int))
        (config_content "/home/container" 7102 "pw"
          (getenvD (fun x => if x = "HY2_PASSWORD" then some "pw" else none)
            "MASQUERADE_URL" "https://www.bing.com"))
    ∧ ContainsStr (certFile "/home/container")
        (config_content "/home/container" 7102 "pw"
          (getenvD (fun x => if x = "HY2_PASSWORD" then some "pw" else none)
            "MASQUERADE_URL" "https://www.bing.com"))
    ∧ ContainsStr (keyFile "/home/container")
        (config_content "/home/container" 7102 "pw"
          (getenvD (fun x => if x = "HY2_PASSWORD" then some "pw" else none)
            "MASQUERADE_URL" "https://www.bing.com"))
    ∧ ContainsStr "pw"
        (config_content "/home/container" 7102 "pw"
          (getenvD (fun x => if x = "HY2_PASSWORD" then some "pw" else none)
            "MASQUERADE_URL" "https://www.bing.com"))
    ∧ ContainsStr (getenvD (fun x => if x = "HY2_PASSWORD" then some "pw" else none)
          "MASQUERADE_URL" "https://www.bing.com")
        (config_content "/home/container" 7102 "pw"
          (getenvD (fun x => if x = "HY2_PASSWORD" then some "pw" else none)
            "MASQUERADE_URL" "https://www.bing.com")) :=
  c4_config_contents (fun x => if x = "HY2_PASSWORD" then some "pw" else none)
    "/home/container" (FS.mk none none none none) "pw" 7102
    (by decide) (by decide) (by decide)

/-- C5 counterexample: a malformed `.env` line makes `load_dotenv` hit an
exception (flag `false`), which the script catches and survives: the run
still reaches the server launch — so the IP probe is not the only failure
the program survives without aborting. -/
theorem c5_counterexample :
    (load_dotenv ["NOEQ"] (fun x => if x = "HY2_PASSWORD" then some "pw" else none)).2
      = false
    ∧ Ev.launchServer ∈ (main (fun x => if x = "HY2_PASSWORD" then some "pw" else none)
        (some ["NOEQ"]) "/home/container" (FS.mk none none none none)
        (DlOutcome.ok "bin") (CertOutcome.ok "crt" "key")).1 :=
  ⟨by decide, by decide⟩

/-- C5 (amended): function `get_public_ip` probes the five endpoints in their fixed
list order; the first endpoint that yields a non-empty stripped body wins,
and when every endpoint fails or yields an empty body the function returns
the placeholder `"你的服务器IP"` instead of terminating.  (It is, however,
not the only failure the program survives: `.env` loading errors are also
caught and ignored, per the counterexample.) -/
theorem c5_get_public_ip_fallback (fetch : Fetch) :
    ((∀ s ∈ ip_sources, badResp (fetch s) = true) →
      get_public_ip fetch = "你的服务器IP")
    ∧ (∀ l1 s l2 body, ip_sources = l1 ++ s :: l2 →
        (∀ t ∈ l1, badResp (fetch t) = true) → fetch s = some body →
        ¬ pyStrip body = "" → get_public_ip fetch = pyStrip body) := by
  constructor
  · intro h
    unfold get_public_ip
    exact try_ip_sources_all_bad fetch ip_sources h
  · intro l1 s l2 body horder h1 h2 h3
    unfold get_public_ip
    rw [horder]
    exact try_ip_sources_first_good fetch l1 s l2 body h1 h2 h3

/-- Witness for C5 (amended): total failure yields the placeholder, and a
run where the first endpoint fails but the second answers returns the
stripped body of the second endpoint. -/
theorem c5_get_public_ip_fallback_witness :
    get_public_ip (fun _ => none) = "你的服务器IP"
    ∧ get_public_ip (fun s => if s = "https://ifconfig.me" then some " 9.9.9.9\n" else none)
      = pyStrip " 9.9.9.9\n" :=
  ⟨(c5_get_public_ip_fallback (fun _ => none)).1 (by decide),
   (c5_get_public_ip_fallback
      (fun s => if s = "https://ifconfig.me" then some " 9.9.9.9\n" else none)).2
     ["https://api.ipify.org"] "https://ifconfig.me"
     ["https://icanhazip.com", "https://ipinfo.io/ip", "http://checkip.amazonaws.com"]
     " 9.9.9.9\n" rfl (by decide) (by decide) (by decide)⟩

/-- Witness for C10: the file `A=1` overrides a pre-existing value of `A`
in the process environment. -/
theorem c10_dotenv_overrides_prior_env_witness :
    WfDotenv ["A=1"] ∧ dotenvValue ["A=1"] "A" = some "1"
    ∧ (load_dotenv ["A=1"] (fun x => if x = "A" then some "old" else none)).1 "A"
      = some "1" :=
  ⟨by decide, by decide,
    c10_dotenv_overrides_prior_env ["A=1"] (fun x => if x = "A" then some "old" else none)
      "A" "1" (by decide) (by decide)⟩

end Hy2
